import Mathlib

/-!
Shallow embedding of `util/equality/equality.go` from the contour-operator
repository, together with proofs about its five comparison functions
(`DaemonsetConfigChanged`, `JobConfigChanged`, `DeploymentConfigChanged`,
`ClusterIpServiceChanged`, `LoadBalancerServiceChanged`).

Modelling conventions:
- A Go `map[string]string` is `Option (List (String × String))`: `none` is the
  nil map and `some l` a non-nil map with entries `l`.  `apiequality.Semantic.DeepEqual`
  on such maps (which for plain string maps is `reflect.DeepEqual`: nil and
  non-nil differ, two non-nil maps are equal when they agree on every key) is
  embedded as `labelsEq` below, built from lookup-extensional equality.
- A Go `*int32` (Parallelism, BackoffLimit, Completions) is `Option Int`:
  `reflect.DeepEqual` on pointers (nil vs non-nil differ, otherwise compare
  the pointed-to values) is structural equality on `Option Int`.
- The spec structs that the Go code only ever compares wholesale and assigns
  wholesale (`appsv1.DaemonSetSpec`, `appsv1.DeploymentSpec`, `corev1.PodSpec`)
  are wrapped opaque payloads with decidable equality; the code never looks
  inside them.
- `ObjectMeta` keeps the metadata fields relevant to the comparisons and the
  frame properties: name, namespace, labels, annotations.
- Each Go function body of the shape `changed := false; updated := current.DeepCopy();
  if !DeepEqual(a, b) { changed = true; updated.X = ... }; ...; if !changed
  { return nil, false }; return updated, true` is transcribed condition by
  condition: one boolean per `if`, the sequence of conditional field
  assignments, and the final nil/updated choice.
-/

/-- Raw entries of a non-nil Go `map[string]string`. -/
abbrev GoMapRaw := List (String × String)

/-- A Go `map[string]string`: `none` is the nil map. -/
abbrev GoMap := Option GoMapRaw

/-- Extensional equality of two non-nil string maps: they agree on the lookup
of every key occurring in either.  This is `reflect.DeepEqual` on two non-nil
Go maps (same key set, same values), order-insensitive. -/
def mapEqRaw (a b : GoMapRaw) : Bool :=
  (a.all fun kv => b.lookup kv.1 == a.lookup kv.1) &&
  (b.all fun kv => a.lookup kv.1 == b.lookup kv.1)

/-- Embedding of `apiequality.Semantic.DeepEqual` on two Go string maps: a nil map equals
only a nil map; two non-nil maps are compared extensionally. -/
def labelsEq : GoMap → GoMap → Bool
  | none, none => true
  | some a, some b => mapEqRaw a b
  | _, _ => false

/-- The subset of `metav1.ObjectMeta` the comparison functions and their frame
properties touch. -/
structure ObjectMeta where
  name : String
  nspace : String
  labels : GoMap
  annotations : GoMap
deriving DecidableEq

/-- Opaque payload for `appsv1.DaemonSetSpec`: the Go code only compares it
wholesale with `DeepEqual` and assigns it wholesale. -/
structure DaemonSetSpec where
  payload : String
deriving DecidableEq

/-- Embedding of `appsv1.DaemonSet`: metadata plus spec. -/
structure DaemonSet where
  meta : ObjectMeta
  spec : DaemonSetSpec
deriving DecidableEq

/-- Opaque payload for `appsv1.DeploymentSpec`. -/
structure DeploymentSpec where
  payload : String
deriving DecidableEq

/-- Embedding of `appsv1.Deployment`: metadata plus spec. -/
structure Deployment where
  meta : ObjectMeta
  spec : DeploymentSpec
deriving DecidableEq

/-- Opaque payload for `corev1.PodSpec` (the job template's pod spec). -/
structure PodSpec where
  payload : String
deriving DecidableEq

/-- Embedding of `corev1.PodTemplateSpec` as used by the job comparison: template labels
and the pod spec. -/
structure PodTemplateSpec where
  labels : GoMap
  spec : PodSpec
deriving DecidableEq

/-- The fields of `batchv1.JobSpec` the job comparison reads: parallelism,
backoff limit, completions (all `*int32`) and the pod template. -/
structure JobSpec where
  parallelism : Option Int
  backoffLimit : Option Int
  completions : Option Int
  template : PodTemplateSpec
deriving DecidableEq

/-- Embedding of `batchv1.Job`: metadata plus spec. -/
structure Job where
  meta : ObjectMeta
  spec : JobSpec
deriving DecidableEq

/-- Modelled from the spec: the ownership marker label key
(`operatorv1alpha1.OwningContourLabel`) comes from the operator's API package,
which is not part of this source tree.  The comparison code only uses it as a
fixed map key, so its exact string value is immaterial to every property
proved here. -/
def OwningContourLabel : String := "contour.operator.projectcontour.io/owning-contour"

/-- Embedding of `intstr.IntOrString`, the type of a service port's target port. -/
inductive IntOrString where
  | ofInt : Int → IntOrString
  | ofString : String → IntOrString
deriving DecidableEq

/-- Embedding of `corev1.ServicePort`: name, protocol, port, target port and the
node-assigned node port. -/
structure ServicePort where
  name : String
  protocol : String
  port : Int
  targetPort : IntOrString
  nodePort : Int
deriving DecidableEq

/-- The fields of `corev1.ServiceSpec` the service comparisons read or the
frame properties mention. -/
structure ServiceSpec where
  ports : List ServicePort
  selector : GoMap
  clusterIP : String
  serviceType : String
  externalTrafficPolicy : String
  sessionAffinity : String
  healthCheckNodePort : Int
deriving DecidableEq

/-- Embedding of `corev1.Service`: metadata plus spec. -/
structure Service where
  meta : ObjectMeta
  spec : ServiceSpec
deriving DecidableEq

/-- Embedding of `equality.DaemonsetConfigChanged`: compare labels and spec; on a label
difference set the copy's labels from expected, on a spec difference set the
copy's spec from expected; return `(nil, false)` when nothing changed. -/
def DaemonsetConfigChanged (current expected : DaemonSet) : Option DaemonSet × Bool :=
  let labelsDiffer := !(labelsEq current.meta.labels expected.meta.labels)
  let specDiffers := !(decide (current.spec = expected.spec))
  let updated1 :=
    if labelsDiffer then
      { current with meta := { current.meta with labels := expected.meta.labels } }
    else current
  let updated2 :=
    if specDiffers then { updated1 with spec := expected.spec } else updated1
  let changed := labelsDiffer || specDiffers
  if changed then (some updated2, true) else (none, false)

/-- Embedding of `equality.JobConfigChanged`: compare labels, parallelism, backoff limit,
presence of the owning-contour key in current's template labels (only when
that map is non-nil), and the template pod spec.  Every branch of the Go
function assigns `updated = expected`, so the returned snapshot on any change
is `expected` itself; completions is never compared. -/
def JobConfigChanged (current expected : Job) : Option Job × Bool :=
  let labelsDiffer := !(labelsEq current.meta.labels expected.meta.labels)
  let parallelismDiffers := !(decide (current.spec.parallelism = expected.spec.parallelism))
  let backoffDiffers := !(decide (current.spec.backoffLimit = expected.spec.backoffLimit))
  let ownerMissing :=
    match current.spec.template.labels with
    | none => false
    | some m => !((m.lookup OwningContourLabel).isSome)
  let templateSpecDiffers := !(decide (current.spec.template.spec = expected.spec.template.spec))
  let changed := labelsDiffer || parallelismDiffers || backoffDiffers ||
    ownerMissing || templateSpecDiffers
  if changed then (some expected, true) else (none, false)

/-- Embedding of `equality.DeploymentConfigChanged`: compare labels and spec; every branch
of the Go function assigns `updated = expected`, so the returned snapshot on
any change is `expected` itself. -/
def DeploymentConfigChanged (current expected : Deployment) : Option Deployment × Bool :=
  let labelsDiffer := !(labelsEq current.meta.labels expected.meta.labels)
  let specDiffers := !(decide (current.spec = expected.spec))
  let changed := labelsDiffer || specDiffers
  if changed then (some expected, true) else (none, false)

/-- Embedding of `equality.ClusterIpServiceChanged`: compare the port list (by length, else
wholesale), selector, session affinity and service type, patching each
differing field in the copy of current; the cluster IP is never compared nor
assigned. -/
def ClusterIpServiceChanged (current expected : Service) : Option Service × Bool :=
  let portsDiffer :=
    if current.spec.ports.length ≠ expected.spec.ports.length then true
    else !(decide (current.spec.ports = expected.spec.ports))
  let selectorDiffers := !(labelsEq current.spec.selector expected.spec.selector)
  let affinityDiffers := !(decide (current.spec.sessionAffinity = expected.spec.sessionAffinity))
  let typeDiffers := !(decide (current.spec.serviceType = expected.spec.serviceType))
  let updated1 :=
    if portsDiffer then
      { current with spec := { current.spec with ports := expected.spec.ports } }
    else current
  let updated2 :=
    if selectorDiffers then
      { updated1 with spec := { updated1.spec with selector := expected.spec.selector } }
    else updated1
  let updated3 :=
    if affinityDiffers then
      { updated2 with spec := { updated2.spec with sessionAffinity := expected.spec.sessionAffinity } }
    else updated2
  let updated4 :=
    if typeDiffers then
      { updated3 with spec := { updated3.spec with serviceType := expected.spec.serviceType } }
    else updated3
  let changed := portsDiffer || selectorDiffers || affinityDiffers || typeDiffers
  if changed then (some updated4, true) else (none, false)

/-- The body of the per-port loop of `equality.LoadBalancerServiceChanged` for
one index: compare name, protocol, port and target port of the current port
`p` against the expected port `e`, assigning each differing field from `e`;
the node port is neither compared nor assigned.  Returns the patched port and
whether any of the four fields differed. -/
def lbPatchPort (p e : ServicePort) : ServicePort × Bool :=
  let nameDiffers := !(decide (p.name = e.name))
  let protocolDiffers := !(decide (p.protocol = e.protocol))
  let portDiffers := !(decide (p.port = e.port))
  let targetPortDiffers := !(decide (p.targetPort = e.targetPort))
  ({ p with
      name := if nameDiffers then e.name else p.name,
      protocol := if protocolDiffers then e.protocol else p.protocol,
      port := if portDiffers then e.port else p.port,
      targetPort := if targetPortDiffers then e.targetPort else p.targetPort },
   nameDiffers || protocolDiffers || portDiffers || targetPortDiffers)

/-- The per-port loop of `equality.LoadBalancerServiceChanged`, iterating the
two port lists in lockstep (the Go loop runs `for i, p := range current.Spec.Ports`
indexing into `expected.Spec.Ports[i]`; it is only reached when the lengths
are equal). -/
def lbPatchPorts : List ServicePort → List ServicePort → List ServicePort × Bool
  | [], _ => ([], false)
  | ps, [] => (ps, false)
  | p :: ps, e :: es =>
    let pc := lbPatchPort p e
    let rest := lbPatchPorts ps es
    (pc.1 :: rest.1, pc.2 || rest.2)

/-- Embedding of `equality.LoadBalancerServiceChanged`: on a port-count mismatch replace the
whole port list from expected; otherwise patch name/protocol/port/targetPort
per port (node ports untouched); then compare selector, external traffic
policy, session affinity and service type, patching each differing field in
the copy of current.  Health check node port and cluster IP are never compared
nor assigned. -/
def LoadBalancerServiceChanged (current expected : Service) : Option Service × Bool :=
  let lengthsDiffer := decide (current.spec.ports.length ≠ expected.spec.ports.length)
  let portsResult := lbPatchPorts current.spec.ports expected.spec.ports
  let newPorts := if lengthsDiffer then expected.spec.ports else portsResult.1
  let portsChanged := if lengthsDiffer then true else portsResult.2
  let selectorDiffers := !(labelsEq current.spec.selector expected.spec.selector)
  let etpDiffers :=
    !(decide (current.spec.externalTrafficPolicy = expected.spec.externalTrafficPolicy))
  let affinityDiffers := !(decide (current.spec.sessionAffinity = expected.spec.sessionAffinity))
  let typeDiffers := !(decide (current.spec.serviceType = expected.spec.serviceType))
  let updated1 := { current with spec := { current.spec with ports := newPorts } }
  let updated2 :=
    if selectorDiffers then
      { updated1 with spec := { updated1.spec with selector := expected.spec.selector } }
    else updated1
  let updated3 :=
    if etpDiffers then
      { updated2 with spec := { updated2.spec with externalTrafficPolicy := expected.spec.externalTrafficPolicy } }
    else updated2
  let updated4 :=
    if affinityDiffers then
      { updated3 with spec := { updated3.spec with sessionAffinity := expected.spec.sessionAffinity } }
    else updated3
  let updated5 :=
    if typeDiffers then
      { updated4 with spec := { updated4.spec with serviceType := expected.spec.serviceType } }
    else updated4
  let changed := portsChanged || selectorDiffers || etpDiffers || affinityDiffers || typeDiffers
  if changed then (some updated5, true) else (none, false)

/-! ### Basic lemmas about the embedded operations -/

theorem mapEqRaw_refl (a : GoMapRaw) : mapEqRaw a a = true := by
  simp [mapEqRaw, List.all_eq_true]

theorem labelsEq_refl (m : GoMap) : labelsEq m m = true := by
  cases m with
  | none => rfl
  | some a => exact mapEqRaw_refl a

theorem lbPatchPort_refl (p : ServicePort) : lbPatchPort p p = (p, false) := by
  cases p
  simp [lbPatchPort]

theorem lbPatchPorts_refl (ps : List ServicePort) : lbPatchPorts ps ps = (ps, false) := by
  induction ps with
  | nil => rfl
  | cons p ps ih => simp [lbPatchPorts, lbPatchPort_refl, ih]

/-- Second component of the common `(nil, false) / (updated, true)` return
shape: it is the changed flag itself. -/
theorem pairSnd {α : Type} (b : Bool) (u : α) :
    (if b then ((some u : Option α), true) else (none, false)).2 = b := by
  cases b <;> simp

/-- First component of the common return shape: it is `none` exactly when the
changed flag is false. -/
theorem pairNoneIffFalse {α : Type} (b : Bool) (u : α) :
    ((if b then ((some u : Option α), true) else (none, false)).1 = none
      ↔ (if b then ((some u : Option α), true) else (none, false)).2 = false) := by
  cases b <;> simp

/-! ### Concrete sample resources used by witnesses and counterexamples -/

def metaA : ObjectMeta :=
  { name := "contour", nspace := "projectcontour",
    labels := some [("app", "contour")], annotations := some [("note", "x")] }

def metaB : ObjectMeta :=
  { name := "contour", nspace := "projectcontour",
    labels := some [("app", "envoy")], annotations := some [("note", "x")] }

def jobTemplateOwned : PodTemplateSpec :=
  { labels := some [(OwningContourLabel, "contour")], spec := { payload := "pod" } }

def jobA : Job :=
  { meta := metaA,
    spec := { parallelism := some 1, backoffLimit := some 6, completions := some 1,
              template := jobTemplateOwned } }

def jobB : Job :=
  { meta := metaB,
    spec := { parallelism := some 1, backoffLimit := some 6, completions := some 1,
              template := jobTemplateOwned } }

def jobNoOwner : Job :=
  { meta := metaA,
    spec := { parallelism := some 1, backoffLimit := some 6, completions := some 1,
              template := { labels := some [], spec := { payload := "pod" } } } }

def jobNilTemplate : Job :=
  { meta := metaA,
    spec := { parallelism := some 1, backoffLimit := some 6, completions := some 1,
              template := { labels := none, spec := { payload := "pod" } } } }

/-! ### Claim theorems -/

/-- Claim C3: for `JobConfigChanged`, whenever any compared difference is
detected (labels, parallelism, backoff limit, template ownership-marker
missing from a non-nil template label map, or template pod spec), the result
is `changed = true` with `updated` equal to `expected` in its entirety. -/
theorem c3_job_wholesale_replace (current expected : Job)
    (h : labelsEq current.meta.labels expected.meta.labels = false
      ∨ current.spec.parallelism ≠ expected.spec.parallelism
      ∨ current.spec.backoffLimit ≠ expected.spec.backoffLimit
      ∨ (∃ m, current.spec.template.labels = some m
          ∧ (m.lookup OwningContourLabel).isSome = false)
      ∨ current.spec.template.spec ≠ expected.spec.template.spec) :
    JobConfigChanged current expected = (some expected, true) := by
  unfold JobConfigChanged
  rcases h with h | h | h | ⟨m, hm, hk⟩ | h
  · simp [h]
  · simp [h]
  · simp [h]
  · simp [hm, hk]
  · simp [h]

theorem c3_witness : JobConfigChanged jobA jobB = (some jobB, true) :=
  c3_job_wholesale_replace jobA jobB (Or.inl (by decide))

/-- Claim C4: for `JobConfigChanged`, whenever current's template label map is
non-nil and lacks the ownership marker key, the result is `changed = true`
with `updated = expected`, regardless of every other field of either input. -/
theorem c4_owner_missing_forces_replace (current expected : Job) (m : GoMapRaw)
    (hm : current.spec.template.labels = some m)
    (hk : (m.lookup OwningContourLabel).isSome = false) :
    JobConfigChanged current expected = (some expected, true) := by
  unfold JobConfigChanged
  simp [hm, hk]

theorem c4_witness : JobConfigChanged jobNoOwner jobB = (some jobB, true) :=
  c4_owner_missing_forces_replace jobNoOwner jobB [] rfl rfl

/-- Claim C9: for each of the five comparison functions, the returned snapshot
is `none` (nil) exactly when the changed flag is false; whenever the flag is
true the snapshot is non-nil. -/
theorem c9_nil_iff_unchanged (d e : DaemonSet) (cd ce : Deployment) (cj ej : Job)
    (cs es ct et : Service) :
    ((DaemonsetConfigChanged d e).1 = none ↔ (DaemonsetConfigChanged d e).2 = false) ∧
    ((JobConfigChanged cj ej).1 = none ↔ (JobConfigChanged cj ej).2 = false) ∧
    ((DeploymentConfigChanged cd ce).1 = none ↔ (DeploymentConfigChanged cd ce).2 = false) ∧
    ((ClusterIpServiceChanged cs es).1 = none ↔ (ClusterIpServiceChanged cs es).2 = false) ∧
    ((LoadBalancerServiceChanged ct et).1 = none ↔ (LoadBalancerServiceChanged ct et).2 = false) :=
  ⟨pairNoneIffFalse _ _, pairNoneIffFalse _ _, pairNoneIffFalse _ _,
   pairNoneIffFalse _ _, pairNoneIffFalse _ _⟩

/-- Claim C10: for `JobConfigChanged`, when current's template label map is nil
the ownership-marker check is skipped, and the changed flag is determined
solely by the labels, parallelism, backoff-limit and template-spec
comparisons. -/
theorem c10_nil_template_labels_skips_owner_check (current expected : Job)
    (h : current.spec.template.labels = none) :
    (JobConfigChanged current expected).2 =
      (!(labelsEq current.meta.labels expected.meta.labels) ||
       !(decide (current.spec.parallelism = expected.spec.parallelism)) ||
       !(decide (current.spec.backoffLimit = expected.spec.backoffLimit)) ||
       !(decide (current.spec.template.spec = expected.spec.template.spec))) := by
  unfold JobConfigChanged
  rw [h]
  simp only [pairSnd]
  simp

theorem c10_witness :
    (JobConfigChanged jobNilTemplate jobB).2 =
      (!(labelsEq jobNilTemplate.meta.labels jobB.meta.labels) ||
       !(decide (jobNilTemplate.spec.parallelism = jobB.spec.parallelism)) ||
       !(decide (jobNilTemplate.spec.backoffLimit = jobB.spec.backoffLimit)) ||
       !(decide (jobNilTemplate.spec.template.spec = jobB.spec.template.spec))) :=
  c10_nil_template_labels_skips_owner_check jobNilTemplate jobB rfl

/-- First component of the common return shape: when it is `some v`, the
payload `v` is the snapshot the true branch carries. -/
theorem pairSomeEq {α : Type} {b : Bool} {x v : α}
    (h : (if b then ((some x : Option α), true) else (none, false)).1 = some v) : v = x := by
  cases b
  · simp at h
  · simp at h
    exact h.symm

/-! ### More concrete sample resources -/

def metaC : ObjectMeta :=
  { name := "contour-renamed", nspace := "projectcontour",
    labels := some [("app", "envoy")], annotations := some [("note", "y")] }

def dsA : DaemonSet := { meta := metaA, spec := { payload := "daemon" } }

def dsB : DaemonSet := { meta := metaB, spec := { payload := "daemon" } }

def depA : Deployment := { meta := metaA, spec := { payload := "deploy" } }

def depB : Deployment := { meta := metaB, spec := { payload := "deploy" } }

def depC : Deployment := { meta := metaC, spec := { payload := "deploy" } }

def jobD : Job :=
  { meta := metaB,
    spec := { parallelism := some 1, backoffLimit := some 6, completions := some 2,
              template := jobTemplateOwned } }

def portHTTP : ServicePort :=
  { name := "http", protocol := "TCP", port := 80,
    targetPort := .ofInt 8080, nodePort := 30080 }

def portHTTPS : ServicePort :=
  { name := "https", protocol := "TCP", port := 443,
    targetPort := .ofInt 8443, nodePort := 30443 }

def portMetrics : ServicePort :=
  { name := "metrics", protocol := "TCP", port := 8000,
    targetPort := .ofInt 8000, nodePort := 0 }

def svcInternal : Service :=
  { meta := metaA,
    spec := { ports := [portHTTP, portHTTPS], selector := some [("app", "contour")],
              clusterIP := "172.30.0.10", serviceType := "ClusterIP",
              externalTrafficPolicy := "", sessionAffinity := "None",
              healthCheckNodePort := 0 } }

def svcLB : Service :=
  { meta := metaA,
    spec := { ports := [portHTTP, portHTTPS], selector := some [("app", "envoy")],
              clusterIP := "10.0.0.1", serviceType := "LoadBalancer",
              externalTrafficPolicy := "Local", sessionAffinity := "None",
              healthCheckNodePort := 31000 } }

/-- Claim C1 is refuted at a concrete input: for `DeploymentConfigChanged`,
two deployments differing in labels and in name give `changed = true` with
`updated` equal to `expected` in its entirety, so a metadata field other than
labels and spec (the name) does not equal current's. -/
theorem c1_counterexample :
    DeploymentConfigChanged depA depC = (some depC, true) ∧
    depC.meta.name ≠ depA.meta.name := by
  constructor
  · decide
  · decide

/-- Claim C1 (amended): for `DaemonsetConfigChanged`, when the result carries a
snapshot, every metadata field of it other than the labels (name, namespace,
annotations) equals current's; for `DeploymentConfigChanged`, when the result
carries a snapshot, that snapshot is `expected` in its entirety. -/
theorem c1_amended_frame (cur exp : DaemonSet) (cd ce : Deployment)
    (u : DaemonSet) (v : Deployment)
    (hu : (DaemonsetConfigChanged cur exp).1 = some u)
    (hv : (DeploymentConfigChanged cd ce).1 = some v) :
    u.meta.name = cur.meta.name ∧ u.meta.nspace = cur.meta.nspace ∧
    u.meta.annotations = cur.meta.annotations ∧ v = ce := by
  have hu2 := pairSomeEq hu
  have hv2 := pairSomeEq hv
  subst hu2
  refine ⟨?_, ?_, ?_, hv2⟩ <;>
    by_cases hL : labelsEq cur.meta.labels exp.meta.labels = true <;>
      by_cases hS : cur.spec = exp.spec <;>
        simp [hL, hS]

theorem c1_witness :
    ({ dsA with meta := { dsA.meta with labels := dsB.meta.labels } } : DaemonSet).meta.name
        = dsA.meta.name ∧
    ({ dsA with meta := { dsA.meta with labels := dsB.meta.labels } } : DaemonSet).meta.nspace
        = dsA.meta.nspace ∧
    ({ dsA with meta := { dsA.meta with labels := dsB.meta.labels } } : DaemonSet).meta.annotations
        = dsA.meta.annotations ∧
    depB = depB :=
  c1_amended_frame dsA dsB depA depB
    { dsA with meta := { dsA.meta with labels := dsB.meta.labels } } depB
    (by decide) (by decide)

/-- Claim C2 is refuted at a concrete input: two jobs whose labels and
completion counts both differ give `changed = true` with `updated` equal to
`expected`, whose completion count differs from current's — the completion
count is overwritten from expected. -/
theorem c2_counterexample :
    JobConfigChanged jobA jobD = (some jobD, true) ∧
    jobD.spec.completions ≠ jobA.spec.completions := by
  constructor
  · decide
  · decide

/-- Claim C2 (amended): for `JobConfigChanged` the completion count is never
compared — replacing both inputs' completion counts by arbitrary values leaves
the changed flag unchanged — but when the result carries a snapshot, that
snapshot is `expected`, so its completion count equals expected's (not
necessarily current's). -/
theorem c2_amended_completions (current expected : Job) (c e : Option Int) (u : Job)
    (hu : (JobConfigChanged current expected).1 = some u) :
    (JobConfigChanged { current with spec := { current.spec with completions := c } }
        { expected with spec := { expected.spec with completions := e } }).2
      = (JobConfigChanged current expected).2
    ∧ u.spec.completions = expected.spec.completions := by
  constructor
  · simp only [JobConfigChanged, pairSnd]
  · have h2 := pairSomeEq hu
    rw [h2]

theorem c2_witness :
    (JobConfigChanged { jobA with spec := { jobA.spec with completions := none } }
        { jobD with spec := { jobD.spec with completions := some 5 } }).2
      = (JobConfigChanged jobA jobD).2
    ∧ jobD.spec.completions = jobD.spec.completions :=
  c2_amended_completions jobA jobD none (some 5) jobD (by decide)

/-- Claim C7 is refuted at a concrete input: a job whose template label map is
non-nil and lacks the ownership marker key gives `changed = true` even when
current and expected are the very same snapshot. -/
theorem c7_counterexample :
    JobConfigChanged jobNoOwner jobNoOwner = (some jobNoOwner, true) := by
  decide

/-- Claim C7 (amended): with `current = expected` field-for-field, each of the
five comparison functions returns `changed = false`, except that for
`JobConfigChanged` this additionally requires current's template label map to
be nil or to contain the ownership marker key. -/
theorem c7_amended_idempotence (d : DaemonSet) (dep : Deployment) (j : Job) (s t : Service)
    (hj : j.spec.template.labels = none
      ∨ ∃ m, j.spec.template.labels = some m ∧ (m.lookup OwningContourLabel).isSome = true) :
    DaemonsetConfigChanged d d = (none, false) ∧
    JobConfigChanged j j = (none, false) ∧
    DeploymentConfigChanged dep dep = (none, false) ∧
    ClusterIpServiceChanged s s = (none, false) ∧
    LoadBalancerServiceChanged t t = (none, false) := by
  refine ⟨?_, ?_, ?_, ?_, ?_⟩
  · unfold DaemonsetConfigChanged
    simp [labelsEq_refl]
  · unfold JobConfigChanged
    rcases hj with h | ⟨m, hm, hk⟩
    · simp [h, labelsEq_refl]
    · simp [hm, hk, labelsEq_refl]
  · unfold DeploymentConfigChanged
    simp [labelsEq_refl]
  · unfold ClusterIpServiceChanged
    simp [labelsEq_refl]
  · unfold LoadBalancerServiceChanged
    simp [labelsEq_refl, lbPatchPorts_refl]

theorem c7_witness :
    DaemonsetConfigChanged dsA dsA = (none, false) ∧
    JobConfigChanged jobA jobA = (none, false) ∧
    DeploymentConfigChanged depA depA = (none, false) ∧
    ClusterIpServiceChanged svcInternal svcInternal = (none, false) ∧
    LoadBalancerServiceChanged svcLB svcLB = (none, false) :=
  c7_amended_idempotence dsA depA jobA svcInternal svcLB
    (Or.inr ⟨[(OwningContourLabel, "contour")], rfl, by decide⟩)

/-- Patching a port against a copy of itself with only the target port changed
(to a different value) flags the change and assigns exactly the target port. -/
theorem lbPatchPort_targetPort (p : ServicePort) (t : IntOrString) (h : ¬ p.targetPort = t) :
    lbPatchPort p { p with targetPort := t } = ({ p with targetPort := t }, true) := by
  cases p
  simp_all [lbPatchPort]

/-- The per-port loop on lists sharing a common prefix patches only past the
prefix. -/
theorem lbPatchPorts_append (pre xs ys : List ServicePort) :
    lbPatchPorts (pre ++ xs) (pre ++ ys)
      = (pre ++ (lbPatchPorts xs ys).1, (lbPatchPorts xs ys).2) := by
  induction pre with
  | nil => simp
  | cons q pre ih => simp [lbPatchPorts, lbPatchPort_refl, ih]

/-- Patching a port against a copy of itself with only the node port changed
detects no difference and leaves the port untouched: the node port is neither
compared nor assigned. -/
theorem lbPatchPort_nodePort (p : ServicePort) (np : Int) :
    lbPatchPort p { p with nodePort := np } = (p, false) := by
  cases p
  simp [lbPatchPort]

/-- The per-port loop against a list that only replaces node ports detects no
difference and returns the current ports untouched. -/
theorem lbPatchPorts_nodePorts (ps : List ServicePort) (nps : List Int) :
    lbPatchPorts ps (List.zipWith (fun p np => { p with nodePort := np }) ps nps)
      = (ps, false) := by
  induction ps generalizing nps with
  | nil => simp [lbPatchPorts]
  | cons p ps ih =>
    cases nps with
    | nil => simp [lbPatchPorts]
    | cons np nps => simp [lbPatchPorts, lbPatchPort_nodePort, ih]

/-- Claim C5: for `LoadBalancerServiceChanged`, when current and expected have
equal port counts and differ only in one port's target port, the result is
`changed = true` and `updated` is current with exactly that port's target port
changed to expected's value; node ports on every port and all other fields are
left exactly as in current. -/
theorem c5_lb_targetport_patch (current expected : Service) (pre post : List ServicePort)
    (p : ServicePort) (t : IntOrString)
    (hc : current.spec.ports = pre ++ p :: post)
    (he : expected = { current with spec := { current.spec with
            ports := pre ++ { p with targetPort := t } :: post } })
    (ht : p.targetPort ≠ t) :
    LoadBalancerServiceChanged current expected =
      (some { current with spec := { current.spec with
          ports := pre ++ { p with targetPort := t } :: post } }, true) := by
  subst he
  have hpatch : lbPatchPorts (pre ++ p :: post) (pre ++ { p with targetPort := t } :: post)
      = (pre ++ { p with targetPort := t } :: post, true) := by
    rw [lbPatchPorts_append]
    simp [lbPatchPorts, lbPatchPort_targetPort p t ht, lbPatchPorts_refl]
  unfold LoadBalancerServiceChanged
  rw [hc]
  simp [hpatch, labelsEq_refl]

theorem c5_witness :
    LoadBalancerServiceChanged svcLB
      { svcLB with spec := { svcLB.spec with
          ports := [portHTTP] ++ { portHTTPS with targetPort := .ofInt 9443 } :: [] } } =
      (some { svcLB with spec := { svcLB.spec with
          ports := [portHTTP] ++ { portHTTPS with targetPort := .ofInt 9443 } :: [] } }, true) :=
  c5_lb_targetport_patch svcLB
    { svcLB with spec := { svcLB.spec with
        ports := [portHTTP] ++ { portHTTPS with targetPort := .ofInt 9443 } :: [] } }
    [portHTTP] [] portHTTPS (.ofInt 9443) rfl rfl (by decide)

/-- Claim C6: for `ClusterIpServiceChanged`, when current and expected are
identical except that their port lists have different lengths, the result is
`changed = true` and `updated` is current with its port list replaced in full
by expected's; the cluster IP and every other non-compared field stay
current's. -/
theorem c6_clusterip_length_mismatch (current expected : Service) (ps : List ServicePort)
    (hlen : ps.length ≠ current.spec.ports.length)
    (he : expected = { current with spec := { current.spec with ports := ps } }) :
    ClusterIpServiceChanged current expected =
      (some { current with spec := { current.spec with ports := ps } }, true) := by
  subst he
  have hlen2 : current.spec.ports.length ≠ ps.length := fun h => hlen h.symm
  unfold ClusterIpServiceChanged
  simp [hlen2, labelsEq_refl]

theorem c6_witness :
    ClusterIpServiceChanged svcInternal
      { svcInternal with spec := { svcInternal.spec with
          ports := [portHTTP, portHTTPS, portMetrics] } } =
      (some { svcInternal with spec := { svcInternal.spec with
          ports := [portHTTP, portHTTPS, portMetrics] } }, true) :=
  c6_clusterip_length_mismatch svcInternal
    { svcInternal with spec := { svcInternal.spec with
        ports := [portHTTP, portHTTPS, portMetrics] } }
    [portHTTP, portHTTPS, portMetrics] (by decide) rfl

/-- Claim C8 is refuted at a concrete input: two jobs that differ only in the
excluded completion-count field, but whose (shared) template label map is
non-nil and lacks the ownership marker key, give `changed = true`. -/
theorem c8_counterexample :
    ({ jobNoOwner with spec := { jobNoOwner.spec with completions := some 2 } } : Job).spec.completions
        ≠ jobNoOwner.spec.completions ∧
    (JobConfigChanged jobNoOwner
      { jobNoOwner with spec := { jobNoOwner.spec with completions := some 2 } }).2 = true := by
  constructor
  · decide
  · decide

/-- Claim C8 (amended): inputs that differ only in an excluded field give
`changed = false` — cluster IP for `ClusterIpServiceChanged`, per-port node
ports and the health-check node port for `LoadBalancerServiceChanged`, and the
completion count for `JobConfigChanged`, the last additionally requiring
current's template label map to be nil or to contain the ownership marker
key. -/
theorem c8_amended_exclusion_stability (s : Service) (ip : String) (t : Service)
    (nps : List Int) (hcp : Int) (j : Job) (c : Option Int)
    (hlen : nps.length = t.spec.ports.length)
    (hj : j.spec.template.labels = none
      ∨ ∃ m, j.spec.template.labels = some m ∧ (m.lookup OwningContourLabel).isSome = true) :
    (ClusterIpServiceChanged s { s with spec := { s.spec with clusterIP := ip } }).2 = false ∧
    (LoadBalancerServiceChanged t { t with spec := { t.spec with
        ports := List.zipWith (fun p np => { p with nodePort := np }) t.spec.ports nps,
        healthCheckNodePort := hcp } }).2 = false ∧
    (JobConfigChanged j { j with spec := { j.spec with completions := c } }).2 = false := by
  refine ⟨?_, ?_, ?_⟩
  · unfold ClusterIpServiceChanged
    simp [labelsEq_refl]
  · have hzl : (List.zipWith (fun p np => { p with nodePort := np }) t.spec.ports nps).length
        = t.spec.ports.length := by
      simp [hlen]
    unfold LoadBalancerServiceChanged
    simp [hzl, lbPatchPorts_nodePorts, labelsEq_refl]
  · unfold JobConfigChanged
    rcases hj with h | ⟨m, hm, hk⟩
    · simp [h, labelsEq_refl]
    · simp [hm, hk, labelsEq_refl]

theorem c8_witness :
    (ClusterIpServiceChanged svcInternal
      { svcInternal with spec := { svcInternal.spec with clusterIP := "172.30.0.99" } }).2
        = false ∧
    (LoadBalancerServiceChanged svcLB { svcLB with spec := { svcLB.spec with
        ports := List.zipWith (fun p np => { p with nodePort := np }) svcLB.spec.ports
          [31080, 31443],
        healthCheckNodePort := 32000 } }).2 = false ∧
    (JobConfigChanged jobA { jobA with spec := { jobA.spec with completions := some 7 } }).2
        = false :=
  c8_amended_exclusion_stability svcInternal "172.30.0.99" svcLB [31080, 31443] 32000 jobA
    (some 7) (by decide) (Or.inr ⟨[(OwningContourLabel, "contour")], rfl, by decide⟩)
